import Mathlib

/-!
# Verification of the NBApredict prediction/settlement pipeline

A shallow embedding, in Lean 4, of the parts of the NBApredict repository that
the specification's claims are about:

* `NBApredict/predict/bets.py`: the settlement engine (`update_bet_results`),
  the settlement pass (`update_prediction_table`), the outcome probability
  calculator (`line_probability`), and the orchestrator's persistence step of
  `predict_games_on_date`.
* `NBApredict/scrapers/line_scraper.py`: the odds parser (`odds_for_today`,
  `parse_teams`, `parse_moneyline`, `parse_spread`), the odds-table update
  (`update_odds_table`) and the `scrape` entry point.

Python numbers (ints and floats) are embedded as `ℚ` (for scores, lines,
predictions and spreads) and `ℤ` (for American prices); SQL `NULL` / Python
`None` as `Option`; Python exceptions as `Except PyError`.  Stateful ORM code
is rendered as explicit state passing over lists of records.
-/

/-- Python exceptions raised (explicitly or implicitly) by the embedded code. -/
inductive PyError where
  /-- `raise Exception(msg)` -/
  | exception (msg : String)
  /-- `ValueError` from `int()`, `float()` or `datetime.strptime` -/
  | valueError
  /-- `TypeError` from arithmetic on `None` -/
  | typeError
  /-- `NameError` from reading a local variable that was never assigned -/
  | nameError
  /-- `IndexError` from indexing an empty list -/
  | indexError
  deriving Repr, DecidableEq

/-- A row of the predictions table (`predictions_{year}`), with the columns
read or written by `bets.py`: the Game Identity triple, the two final scores
(nullable), the stored line and prediction, and the graded `bet_result`.
`start_time` is a timestamp rendered as `ℕ`. -/
structure PredRec where
  home_team : String
  away_team : String
  start_time : ℕ
  home_team_score : Option ℚ
  away_team_score : Option ℚ
  line : ℚ
  prediction : ℚ
  bet_result : Option String
  deriving Repr, DecidableEq

/-- The per-row grading logic in the body of `update_bet_results`
(`bets.py` lines 224-234), for a row whose scores are present:
`score_margin = home_team_score - away_team_score`, `line_inverse = line * -1`,
then the `if/elif/else` ladder producing PUSH / WIN / WIN / LOSS. -/
def bet_result_of (home_team_score away_team_score line prediction : ℚ) : String :=
  let score_margin := home_team_score - away_team_score
  let line_inverse := line * (-1)
  if score_margin = line_inverse then "PUSH"
  else if score_margin < line_inverse ∧ prediction < line_inverse then "WIN"
  else if score_margin > line_inverse ∧ prediction > line_inverse then "WIN"
  else "LOSS"

/-- One iteration of the `for row in bet_update_objects` loop of
`update_bet_results`: reads both scores (arithmetic on a SQL `NULL` score is a
Python `TypeError`) and assigns `row.bet_result`. -/
def update_bet_result_row (r : PredRec) : Except PyError PredRec :=
  match r.home_team_score, r.away_team_score with
  | some hs, some aw =>
      .ok { r with bet_result := some (bet_result_of hs aw r.line r.prediction) }
  | _, _ => .error .typeError

/-- `update_bet_results` (`bets.py` lines 212-235): grade every row of
`bet_update_objects` in order and return the updated rows. -/
def update_bet_results : List PredRec → Except PyError (List PredRec)
  | [] => .ok []
  | r :: rest =>
    match update_bet_result_row r with
    | .error e => .error e
    | .ok r' =>
      match update_bet_results rest with
      | .error e => .error e
      | .ok rest' => .ok (r' :: rest')

/-- SQL semantics of the filter clause `pred_tbl.home_team_score > 0`:
a `NULL` score does not satisfy the comparison. -/
def sql_gt_zero (x : Option ℚ) : Bool :=
  match x with
  | some v => decide (0 < v)
  | none => false

/-- The filter of the `bet_update_objs` query in `update_prediction_table`
(`bets.py` line 207): `bet_result IS NULL AND home_team_score > 0`.
Note that the away score is not examined. -/
def bet_filter (r : PredRec) : Bool :=
  r.bet_result = none && sql_gt_zero r.home_team_score

/-- `update_prediction_table` (`bets.py` lines 194-209), rendered on the table
state: the `score_update_objs` query re-adds existing rows unchanged (no score
is fetched in this function), and the `bet_update_objs` query selects the rows
satisfying `bet_filter`; `update_bet_results` then mutates exactly those ORM
objects in place, so the resulting table updates the selected rows pointwise
and leaves every other row untouched. -/
def update_prediction_table : List PredRec → Except PyError (List PredRec)
  | [] => .ok []
  | r :: rest =>
    match (if bet_filter r then update_bet_result_row r else .ok r) with
    | .error e => .error e
    | .ok r' =>
      match update_prediction_table rest with
      | .error e => .error e
      | .ok rest' => .ok (r' :: rest')

/-- The cumulative distribution function of `scipy.stats.norm(loc, scale)`
evaluated at `x`: the measure of `(-∞, x]` under the Gaussian of mean `loc`
and variance `scale²`. -/
noncomputable def norm_cdf (loc scale x : ℚ) : ℝ :=
  ((ProbabilityTheory.gaussianReal (loc : ℝ)
      (Real.toNNReal ((scale : ℝ) ^ 2))) (Set.Iic (x : ℝ))).toReal

/-- The survival function of `scipy.stats.norm(loc, scale)` at `x`:
the probability that the variable exceeds `x`, i.e. the measure of
`(x, ∞)` under the same Gaussian (numerically, `sf(x) = 1 - cdf(x)`;
see `norm_cdf_add_norm_sf`). -/
noncomputable def norm_sf (loc scale x : ℚ) : ℝ :=
  ((ProbabilityTheory.gaussianReal (loc : ℝ)
      (Real.toNNReal ((scale : ℝ) ^ 2))) (Set.Ioi (x : ℝ))).toReal

/-- The value returned by `line_probability`: the first two branches return a
pair `(probability, tag)`, the third returns the bare float `0.5`. -/
inductive LineProb where
  | tagged (p : ℝ) (tag : String)
  | bare (p : ℝ)

/-- `line_probability` (`bets.py` lines 92-115): with
`dist = stats.norm(loc=prediction, scale=std)` and
`line_prediction = -1 * line`, return `(dist.cdf(line_prediction), "cdf")`
when `prediction > line_prediction`, `(dist.sf(line_prediction), "sf")` when
`prediction < line_prediction`, and the bare value `0.5` when they are equal
(for rationals the three comparisons are exhaustive, as for non-NaN floats). -/
noncomputable def line_probability (prediction line std : ℚ) : LineProb :=
  let line_prediction := (-1) * line
  if prediction > line_prediction then
    .tagged (norm_cdf prediction std line_prediction) "cdf"
  else if prediction < line_prediction then
    .tagged (norm_sf prediction std line_prediction) "sf"
  else
    .bare (1 / 2)

/-- Python `s.split(sep)` for a one-character separator, on character
lists: splitting the empty string yields one empty piece, as in Python. -/
def splitOnChar (c : Char) : List Char → List (List Char)
  | [] => [[]]
  | x :: xs =>
    match splitOnChar c xs with
    | [] => if x = c then [[], [x]] else [[x]]
    | h :: t => if x = c then [] :: h :: t else (x :: h) :: t

/-- Upper-casing a Python string (`str.upper()`), character by character. -/
def pyUpper (s : String) : String :=
  String.mk (s.toList.map Char.toUpper)

/-- Numeric value of a list of decimal digit characters. -/
def digitsVal (l : List Char) : ℕ :=
  l.foldl (fun acc c => 10 * acc + (c.toNat - '0'.toNat)) 0

/-- Python `int(s)` on an unsigned decimal literal: all characters must be
digits and at least one must be present, else `ValueError`. -/
def pyUNat (l : List Char) : Option ℕ :=
  if l ≠ [] ∧ l.all Char.isDigit then some (digitsVal l) else none

/-- Python `int(s)` on a decimal integer literal with an optional sign
(e.g. "-110", "+180", "100"); `none` models the `ValueError` raised on any
other string. -/
def pyInt (s : String) : Option ℤ :=
  match s.toList with
  | '-' :: rest => (pyUNat rest).map (fun n => -(n : ℤ))
  | '+' :: rest => (pyUNat rest).map (fun n => (n : ℤ))
  | l => (pyUNat l).map (fun n => (n : ℤ))

/-- Python `float(s)` on an unsigned decimal literal, as an exact rational:
either a run of digits, or two runs of digits separated by a point. -/
def pyUFloat (l : List Char) : Option ℚ :=
  match splitOnChar '.' l with
  | [a] => (pyUNat a).map (fun n => (n : ℚ))
  | [a, b] =>
      match pyUNat a, pyUNat b with
      | some n, some f => some ((n : ℚ) + (f : ℚ) / (10 : ℚ) ^ b.length)
      | _, _ => none
  | _ => none

/-- Python `float(s)` on a signed decimal literal (e.g. "-4.5"); `none`
models the `ValueError` raised on any other string. -/
def pyFloat (s : String) : Option ℚ :=
  match s.toList with
  | '-' :: rest => (pyUFloat rest).map (fun q => -q)
  | '+' :: rest => pyUFloat rest
  | l => pyUFloat l

/-- Lift an optional parse result to the exception monad as a `ValueError`. -/
def parseOrValueError {α : Type} (x : Option α) : Except PyError α :=
  match x with
  | some v => .ok v
  | none => .error .valueError

/-- Python `s.count(c)` for a single character. -/
def strCount (s : String) (c : Char) : ℕ :=
  (s.toList.filter (fun x => x = c)).length

/-- The `price` sub-object of a Bovada outcome: `price["american"]` and
`price["handicap"]`, both strings in the feed. -/
structure Price where
  american : String
  handicap : String
  deriving Repr, DecidableEq

/-- A Bovada outcome: `o["type"]` ("H" or "A") and `o["price"]`. -/
structure Outcome where
  otype : String
  price : Price
  deriving Repr, DecidableEq

/-- A Bovada competitor: `team["name"]` and `team["home"]`. -/
structure Competitor where
  name : String
  home : Bool
  deriving Repr, DecidableEq

/-- A Bovada market (`bet`): `bet["description"]`,
`bet["period"]["description"]` and `bet["outcomes"]`. -/
structure Market where
  description : String
  period : String
  outcomes : List Outcome
  deriving Repr, DecidableEq

/-- A Bovada event (`e` / `game`): the fields `odds_for_today` reads.
`displayGroups` is the list of display groups, each carrying its `markets`
list. -/
structure Game where
  description : String
  gtype : String
  link : String
  competitors : List Competitor
  displayGroups : List (List Market)
  deriving Repr, DecidableEq

/-- One element of the top-level JSON array returned by a Bovada URL, with its
`"events"` field. -/
structure FeedObj where
  events : List Game
  deriving Repr, DecidableEq

/-- `parse_teams` (`line_scraper.py` lines 109-123).  More than two
competitors raises; the loop assigns `home_team` from the last competitor
flagged home and `away_team` from the last one not flagged home; the final
guard is Python's `not home_team == "" or away_team == ""`, i.e.
`home_team ≠ "" ∨ away_team = ""`, returning the upper-cased names, and
raising otherwise. -/
def parse_teams (competitors : List Competitor) : Except PyError (String × String) :=
  if competitors.length > 2 then
    .error (.exception "Unexpected objects in competitors")
  else
    let p := competitors.foldl
      (fun (p : String × String) team =>
        if team.home then (team.name, p.2) else (p.1, team.name))
      ("", "")
    if ¬ p.1 = "" ∨ p.2 = "" then
      .ok (pyUpper p.1, pyUpper p.2)
    else
      .error (.exception "Competitors was not properly parsed. Missing data.")

/-- The `for o in outcomes` loop of `parse_moneyline`
(`line_scraper.py` lines 133-142): each outcome's `price["american"]` is read
first ("EVEN" becomes `100`, anything else goes through `int()`, whose
failure is a `ValueError`), then the price is assigned to the home or away
variable according to `o["type"]`. -/
def moneyline_outcomes :
    Option ℤ × Option ℤ → List Outcome → Except PyError (Option ℤ × Option ℤ)
  | p, [] => .ok p
  | p, o :: rest =>
    match (if o.price.american = "EVEN" then some (100 : ℤ)
           else pyInt o.price.american) with
    | none => .error .valueError
    | some price =>
      moneyline_outcomes
        (if o.otype = "H" then (some price, p.2)
         else if o.otype = "A" then (p.1, some price)
         else p) rest

/-- `parse_moneyline` (`line_scraper.py` lines 126-146).  The Python
variables `home_moneyline`/`away_moneyline` start as the sentinel `""` and
are embedded as `Option ℤ` with `none` for the sentinel.  The final guard is
`not home_moneyline == "" or away_moneyline == ""`, i.e.
`home ≠ "" ∨ away = ""`, raising otherwise. -/
def parse_moneyline (moneyline_bet : Market) : Except PyError (Option ℤ × Option ℤ) :=
  if moneyline_bet.outcomes.length > 2 then
    .error (.exception "Unexpected objects in moneyline bet")
  else
    match moneyline_outcomes (none, none) moneyline_bet.outcomes with
    | .error e => .error e
    | .ok p =>
      if ¬ p.1 = none ∨ p.2 = none then
        .ok p
      else
        .error (.exception "Moneyline was not properly parsed. Missing data.")

/-- The `for o in outcomes` loop of `parse_spread`
(`line_scraper.py` lines 157-162).  The sentinels `""` for `spread`,
`home_spread_price`, `away_spread_price` are embedded as `none`.  An "H"
outcome sets `spread = float(handicap)` and `home_spread_price =
int(american)`; an "A" outcome sets `away_spread_price = int(american)`;
`float()`/`int()` failures are `ValueError`s.  The final guard of
`parse_spread` is `not spread == "" or home_spread_price == "" or
away_spread_price == ""`, i.e. `spread ≠ "" ∨ hsp = "" ∨ asp = ""`,
raising otherwise. -/
def spread_outcomes :
    Option ℚ × Option ℤ × Option ℤ → List Outcome →
      Except PyError (Option ℚ × Option ℤ × Option ℤ)
  | p, [] => .ok p
  | p, o :: rest =>
    if o.otype = "H" then
      match pyFloat o.price.handicap with
      | none => .error .valueError
      | some s =>
        match pyInt o.price.american with
        | none => .error .valueError
        | some hp => spread_outcomes (some s, some hp, p.2.2) rest
    else if o.otype = "A" then
      match pyInt o.price.american with
      | none => .error .valueError
      | some ap => spread_outcomes (p.1, p.2.1, some ap) rest
    else spread_outcomes p rest

/-- `parse_spread` (`line_scraper.py` lines 149-166): the outcome loop above
with the `""` sentinels starting empty. -/
def parse_spread (spread_bet : Market) :
    Except PyError (Option ℚ × Option ℤ × Option ℤ) :=
  if spread_bet.outcomes.length > 2 then
    .error (.exception "Unexpected objects in spread bet")
  else
    match spread_outcomes (none, none, none) spread_bet.outcomes with
    | .error e => .error e
    | .ok p =>
      if ¬ p.1 = none ∨ p.2.1 = none ∨ p.2.2 = none then
        .ok p
      else
        .error (.exception "Spread was not properly parsed. Missing data.")

/-- `game['link'].split('-')` followed by taking the last element. -/
def lastSegment (s : String) : List Char :=
  (splitOnChar '-' s.toList).getLastD []

/-- `''.join(re.findall('[0-9]', link))` followed by
`datetime.strptime(start_time, "%Y%m%d%H%M")`: the digit run must have
exactly the twelve digits of the format or `strptime` raises `ValueError`.
The timestamp is embedded as the twelve-digit number itself, which is
order-isomorphic to the time it denotes. -/
def parse_start_time (link : String) : Except PyError ℕ :=
  let str_time := (lastSegment link).filter Char.isDigit
  if str_time.length = 12 then .ok (digitsVal str_time) else .error .valueError

/-- The `lines` dictionary built by `odds_for_today`: exactly the nine keys
`home_team, away_team, start_time, spread, home_spread_price,
away_spread_price, home_moneyline, away_moneyline, scrape_time`, each holding
a list of values (one appended per emitted game). -/
structure Lines where
  home_team : List String
  away_team : List String
  start_time : List ℕ
  spread : List (Option ℚ)
  home_spread_price : List (Option ℤ)
  away_spread_price : List (Option ℤ)
  home_moneyline : List (Option ℤ)
  away_moneyline : List (Option ℤ)
  scrape_time : List ℕ
  deriving Repr, DecidableEq

/-- The empty `lines` dictionary (`line_scraper.py` lines 55-56). -/
def Lines.empty : Lines :=
  ⟨[], [], [], [], [], [], [], [], []⟩

/-- Appending `game_lines` to each of the nine lists
(`line_scraper.py` lines 98-105). -/
def Lines.push (l : Lines) (ht at_ : String) (st : ℕ) (sp : Option ℚ)
    (hsp asp hml aml : Option ℤ) (scr : ℕ) : Lines :=
  ⟨l.home_team ++ [ht], l.away_team ++ [at_], l.start_time ++ [st],
   l.spread ++ [sp], l.home_spread_price ++ [hsp],
   l.away_spread_price ++ [asp], l.home_moneyline ++ [hml],
   l.away_moneyline ++ [aml], l.scrape_time ++ [scr]⟩

/-- The spread local variables (`spread`, `home_spread_price`,
`away_spread_price`) of `odds_for_today`'s game loop.  They are assigned only
inside the "Point Spread" branch and are never reset between iterations, so
they are `none` until the first game with a spread market (reading them then
is a `NameError`) and afterwards retain their last assigned values. -/
abbrev SpreadVars := Option (Option ℚ × Option ℤ × Option ℤ)

/-- The state threaded through `odds_for_today`'s game loop: the `lines`
dictionary and the leaked spread variables. -/
structure LoopState where
  lines : Lines
  spreadVars : SpreadVars

/-- The `for bet in full_match_bets` loop (`line_scraper.py` lines 78-93).
The moneyline component of the state is `none` while `money_lines` is still
`False` and `some (home, away)` after a "Moneyline" market is parsed (the
caller's conversion of the `""` sentinel to `None` is the identity in this
embedding); a "Point Spread" market overwrites the leaked spread variables. -/
def process_bets_loop :
    Option (Option ℤ × Option ℤ) × SpreadVars → List Market →
      Except PyError (Option (Option ℤ × Option ℤ) × SpreadVars)
  | st, [] => .ok st
  | st, bet :: rest =>
    if bet.description = "Moneyline" then
      match parse_moneyline bet with
      | .error e => .error e
      | .ok ml => process_bets_loop (some ml, st.2) rest
    else if bet.description = "Point Spread" then
      match parse_spread bet with
      | .error e => .error e
      | .ok sp => process_bets_loop (st.1, some sp) rest
    else process_bets_loop st rest

/-- The bets loop started on the `money_lines = False` state, with the spread
variables inherited from the previous game iterations. -/
def process_bets (bets : List Market) (sv : SpreadVars) :
    Except PyError (Option (Option ℤ × Option ℤ) × SpreadVars) :=
  process_bets_loop (none, sv) bets

/-- One iteration of the `for game in bovada_games` loop
(`line_scraper.py` lines 59-105): parse the start time from the link, skip
games already started (`continue` leaves all loop state unchanged), parse the
competitors, take `game["displayGroups"][0]["markets"]` (an empty
`displayGroups` is an `IndexError`), filter to the "Match" period, run the
bets loop, default the moneylines to `None` when no "Moneyline" market was
seen, read the spread variables (a `NameError` if no game so far had a
"Point Spread" market) and append the nine values. -/
def process_game (now scrape_time : ℕ) (st : LoopState) (game : Game) :
    Except PyError LoopState :=
  match parse_start_time game.link with
  | .error e => .error e
  | .ok start_time =>
    if now > start_time then .ok st
    else
      match parse_teams game.competitors with
      | .error e => .error e
      | .ok teams =>
        match game.displayGroups with
        | [] => .error PyError.indexError
        | betting_info :: _ =>
          let full_match_bets :=
            betting_info.filter (fun bet => bet.period = "Match")
          match process_bets full_match_bets st.spreadVars with
          | .error e => .error e
          | .ok r =>
            let ml := r.1.getD (none, none)
            match r.2 with
            | none => .error .nameError
            | some sp =>
                .ok ⟨st.lines.push teams.1 teams.2 start_time sp.1 sp.2.1
                  sp.2.2 ml.1 ml.2 scrape_time, some sp⟩

/-- The `for game in bovada_games` loop: iterate `process_game`, propagating
any raised exception. -/
def process_games (now scrape_time : ℕ) :
    LoopState → List Game → Except PyError LoopState
  | st, [] => .ok st
  | st, g :: rest =>
    match process_game now scrape_time st g with
    | .error e => .error e
    | .ok st' => process_games now scrape_time st' rest

/-- `bovada_json_request` (`line_scraper.py` lines 19-23): the JSON payload
of a URL, with `None` returned when the payload is empty. -/
def bovada_json_request (response : List FeedObj) : Option (List FeedObj) :=
  if response.length = 0 then none else some response

/-- The event filter of `odds_for_today` (`line_scraper.py` line 50):
`e['description'].count('@') > 0 and e['type'] == 'GAMEEVENT'`. -/
def is_bovada_game (e : Game) : Bool :=
  0 < strCount e.description '@' && e.gtype = "GAMEEVENT"

/-- `odds_for_today` (`line_scraper.py` lines 26-106), as a function of the
payloads served by the regular-season URL and the playoff URL, of the clock
(`datetime.now()`, one value for the whole run) and of `scrape_time`.
Returns `none` for Python's `None` ("no data"): when both payloads are empty
or when the selected payload contains no game events. -/
def odds_for_today (primary secondary : List FeedObj) (now scrape_time : ℕ) :
    Except PyError (Option Lines) :=
  let response? :=
    match bovada_json_request primary with
    | some r => some r
    | none => bovada_json_request secondary
  match response? with
  | none => .ok none
  | some response =>
    match response with
    | [] => .error PyError.indexError
    | f :: _ =>
      let bovada_games := f.events.filter is_bovada_game
      if bovada_games.isEmpty then .ok none
      else
        match process_games now scrape_time ⟨Lines.empty, none⟩ bovada_games with
        | .error e => .error e
        | .ok final => .ok (some final.lines)

/-- The value returned by `scrape`: `False` or the `lines` dictionary. -/
inductive ScrapeResult where
  | noData
  | lines (l : Lines)
  deriving Repr, DecidableEq

/-- `scrape` (`line_scraper.py` lines 240-246): call `odds_for_today` and
return `False` when it produced no lines (`if not lines: return False`),
otherwise return the lines (the code after `return lines` is unreachable). -/
def scrape (primary secondary : List FeedObj) (now scrape_time : ℕ) :
    Except PyError ScrapeResult :=
  match odds_for_today primary secondary now scrape_time with
  | .error e => .error e
  | .ok none => .ok .noData
  | .ok (some l) => .ok (.lines l)

/-- A row dictionary produced from the `lines` data
(`line_data.dict_to_rows()`): the nine odds columns for one game. -/
structure LineRow where
  home_team : String
  away_team : String
  start_time : ℕ
  spread : Option ℚ
  home_spread_price : Option ℤ
  away_spread_price : Option ℤ
  home_moneyline : Option ℤ
  away_moneyline : Option ℤ
  scrape_time : ℕ
  deriving Repr, DecidableEq

/-- A persisted row of the odds table: the nine odds columns plus the
`game_id` foreign key filled in from the schedule. -/
structure OddsRow where
  row : LineRow
  game_id : ℕ
  deriving Repr, DecidableEq

/-- A row of the schedule table, with the columns `update_odds_table`
reads. -/
structure SchedRow where
  id : ℕ
  home_team : String
  away_team : String
  start_time : ℕ
  deriving Repr, DecidableEq

/-- The filter of the deletion query in `update_odds_table`
(`line_scraper.py` lines 210-212): same `home_team`, `away_team` and
`start_time` as the incoming row. -/
def odds_matches (o : OddsRow) (r : LineRow) : Bool :=
  o.row.home_team = r.home_team && o.row.away_team = r.away_team &&
    o.row.start_time = r.start_time

/-- The filter of the schedule lookup in `update_odds_table`
(`line_scraper.py` lines 221-223). -/
def sched_matches (g : SchedRow) (r : LineRow) : Bool :=
  g.home_team = r.home_team && g.away_team = r.away_team &&
    g.start_time = r.start_time

/-- The `for row in rows` loop of `update_odds_table`
(`line_scraper.py` lines 208-229) on the state (odds table, collected
`row_objects`): for each incoming row in order, every existing odds row with
the same Game Identity is deleted from the session; the schedule is queried
for the game (more than one match raises, no match is the `IndexError` of
`game[0]`); the new row object gets the schedule id and is collected. -/
def update_odds_rows (sched_tbl : List SchedRow) :
    List OddsRow × List OddsRow → List LineRow →
      Except PyError (List OddsRow × List OddsRow)
  | st, [] => .ok st
  | st, row :: rest =>
    let tbl := st.1.filter (fun o => ¬ odds_matches o row)
    let game := sched_tbl.filter (fun g => sched_matches g row)
    if game.length > 1 then
      .error (.exception "More than one game matches the row")
    else
      match game with
      | [] => .error PyError.indexError
      | g :: _ => update_odds_rows sched_tbl (tbl, st.2 ++ [(⟨row, g.id⟩ : OddsRow)]) rest

/-- `update_odds_table` proper: guard the empty-rows case, run the loop above
on the table state and an empty list of collected row objects, and finally
`session.add_all(row_objects)`. -/
def update_odds_table (odds_table : List OddsRow) (sched_tbl : List SchedRow)
    (rows : List LineRow) : Except PyError (List OddsRow) :=
  if rows.length = 0 then .ok odds_table
  else
    match update_odds_rows sched_tbl (odds_table, []) rows with
    | .error e => .error e
    | .ok st => .ok (st.1 ++ st.2)

/-- Modelled from the spec: the predictions table carries a uniqueness
constraint on the Game Identity `(home_team, away_team, start_time)` (the
table-creation module that declares it is not part of the analysed sources),
so committing an insert batch raises `IntegrityError` exactly when a staged
row collides with a committed row or with another staged row. -/
def pred_identity (r : PredRec) : String × String × ℕ :=
  (r.home_team, r.away_team, r.start_time)

/-- `insert_predictions(...)` followed by `session.commit()`
(`bets.py` lines 356-357), on the committed table state: the staged batch is
appended, and the commit raises `IntegrityError` when the uniqueness
constraint on the Game Identity is violated (see `pred_identity`). -/
def insert_and_commit (committed staged : List PredRec) :
    Except Unit (List PredRec) :=
  if (committed ++ staged).Pairwise (fun a b => pred_identity a ≠ pred_identity b) then
    .ok (committed ++ staged)
  else
    .error ()

/-- The persistence step of `predict_games_on_date`
(`bets.py` lines 355-363): try to insert and commit the staged rows; on
`IntegrityError`, roll back (discarding the staged batch, so the committed
state is unchanged), run `update_prediction_table` on it, and commit that.
Any exception raised by `update_prediction_table` itself is not caught. -/
def predict_games_on_date_persist (committed staged : List PredRec) :
    Except PyError (List PredRec) :=
  match insert_and_commit committed staged with
  | .ok db => .ok db
  | .error _ => update_prediction_table committed

/-- All nine lists of a `lines` dictionary have the same length. -/
def Lines.balanced (l : Lines) : Prop :=
  l.away_team.length = l.home_team.length ∧
  l.start_time.length = l.home_team.length ∧
  l.spread.length = l.home_team.length ∧
  l.home_spread_price.length = l.home_team.length ∧
  l.away_spread_price.length = l.home_team.length ∧
  l.home_moneyline.length = l.home_team.length ∧
  l.away_moneyline.length = l.home_team.length ∧
  l.scrape_time.length = l.home_team.length

/-- A "Point Spread" market for the Match period with an "H" and an "A"
outcome. -/
def mkSpreadMarket (handicap americanH americanA : String) : Market :=
  ⟨"Point Spread", "Match", [⟨"H", ⟨americanH, handicap⟩⟩, ⟨"A", ⟨americanA, ""⟩⟩]⟩

/-- A "Moneyline" market for the Match period with an "H" and an "A"
outcome. -/
def mkMoneylineMarket (americanH americanA : String) : Market :=
  ⟨"Moneyline", "Match", [⟨"H", ⟨americanH, ""⟩⟩, ⟨"A", ⟨americanA, ""⟩⟩]⟩

/-- A future game event (start 2025-03-26 19:30) whose Match markets hold
only a Point Spread market (home handicap -4.5, both prices -110). -/
def game1 : Game :=
  ⟨"CELTICS @ LAKERS", "GAMEEVENT", "x-202503261930",
   [⟨"Lakers", true⟩, ⟨"Celtics", false⟩],
   [[mkSpreadMarket "-4.5" "-110" "-110"]]⟩

/-- A future game event whose Match markets hold only a Moneyline market
(home -200, away +180) and no Point Spread market. -/
def game2 : Game :=
  ⟨"HEAT @ BULLS", "GAMEEVENT", "x-202503262000",
   [⟨"Bulls", true⟩, ⟨"Heat", false⟩],
   [[mkMoneylineMarket "-200" "+180"]]⟩

/-- A future game event with both a Moneyline and a Point Spread market. -/
def gameFull : Game :=
  ⟨"CELTICS @ LAKERS", "GAMEEVENT", "x-202503261930",
   [⟨"Lakers", true⟩, ⟨"Celtics", false⟩],
   [[mkMoneylineMarket "-200" "+180", mkSpreadMarket "-4.5" "-110" "-110"]]⟩

/-- A game whose Match markets hold a Point Spread market and a Moneyline
market with only an "A" outcome. -/
def gameAwayOnlyML : Game :=
  ⟨"CELTICS @ LAKERS", "GAMEEVENT", "x-202503261930",
   [⟨"Lakers", true⟩, ⟨"Celtics", false⟩],
   [[mkSpreadMarket "-4.5" "-110" "-110",
     (⟨"Moneyline", "Match", [⟨"A", ⟨"+180", ""⟩⟩]⟩ : Market)]]⟩

/-- An event that is not a game (no "@" in the description, not a
GAMEEVENT): filtered out of `bovada_games`. -/
def nonGameEvent : Game :=
  ⟨"NBA Futures", "COMPETITIONEVENT", "x-202503261930", [], [[]]⟩

/-- A prediction row whose margin (5) and prediction (6) both exceed the
line inverse (4.5): the spec's WIN scenario. -/
def winRow : PredRec :=
  ⟨"LAKERS", "CELTICS", 0, some 100, some 95, -(9 / 2), 6, none⟩

/-- A prediction row with a positive home score, an away score of zero and a
null `bet_result`. -/
def zeroAwayRow : PredRec :=
  ⟨"LAKERS", "CELTICS", 0, some 1, some 0, 0, 0, none⟩

/-- A prediction row with a positive home score, a NULL away score and a
null `bet_result`: the settlement filter selects it, and grading it
subtracts `None` from a number. -/
def nullAwayRow : PredRec :=
  ⟨"PISTONS", "CAVS", 4, some 1, none, 0, 0, none⟩

/-- A prediction row already graded: its `bet_result` is set. -/
def settledRow : PredRec :=
  ⟨"BULLS", "HEAT", 1, some 101, some 99, -2, 3, some "WIN"⟩

/-- A prediction row with no scores yet. -/
def pendingRow : PredRec :=
  ⟨"NETS", "KNICKS", 2, none, none, 1, 2, none⟩

/-- An ungraded prediction row with both scores present. -/
def gradeRow : PredRec :=
  ⟨"SUNS", "JAZZ", 3, some 100, some 95, -(9 / 2), 6, none⟩

/-- An incoming odds row dictionary for the Lakers-Celtics game. -/
def lineRow1 : LineRow :=
  ⟨"LAKERS", "CELTICS", 1, some (-(9 / 2)), some (-110), some (-110),
   some (-200), some 180, 5⟩

/-- A stale persisted odds row with the same Game Identity as `lineRow1`. -/
def staleOdds1 : OddsRow :=
  ⟨⟨"LAKERS", "CELTICS", 1, some (-3), some (-105), some (-115),
    some (-190), some 170, 2⟩, 7⟩

/-- Another stale persisted odds row with the same Game Identity as
`lineRow1`. -/
def staleOdds2 : OddsRow :=
  ⟨⟨"LAKERS", "CELTICS", 1, some (-4), some (-110), some (-110),
    some (-195), some 175, 3⟩, 7⟩

/-- A persisted odds row for a different Game Identity. -/
def otherOdds : OddsRow :=
  ⟨⟨"BULLS", "HEAT", 2, none, none, none, none, none, 2⟩, 9⟩

/-- The schedule row matching `lineRow1`. -/
def sched1 : SchedRow := ⟨7, "LAKERS", "CELTICS", 1⟩

/-- A schedule row for a different game. -/
def sched2 : SchedRow := ⟨9, "BULLS", "HEAT", 2⟩

/-- The record emitted by `odds_for_today` for `gameFull` alone. -/
def gameFullLines : Lines :=
  ⟨["LAKERS"], ["CELTICS"], [202503261930], [some (-(9 / 2))], [some (-110)],
   [some (-110)], [some (-200)], [some 180], [0]⟩

/-- The grading ladder of `update_bet_results`, with `-line` for
`line * -1`. -/
theorem bet_result_of_eq (hs aw l p : ℚ) :
    bet_result_of hs aw l p =
      if hs - aw = -l then "PUSH"
      else if hs - aw < -l ∧ p < -l then "WIN"
      else if -l < hs - aw ∧ -l < p then "WIN"
      else "LOSS" := by
  simp only [bet_result_of, mul_neg_one, gt_iff_lt]

/-- C1: for a graded prediction record with numeric scores, line and
prediction, `update_bet_results` assigns the result of the grading ladder:
with `score_margin = home_team_score - away_team_score` and
`line_inverse = -line`, PUSH when the margin equals the line inverse
(regardless of the prediction), WIN when margin and prediction are both
strictly below or both strictly above the line inverse, LOSS otherwise. -/
theorem update_bet_results_grades_as_claimed (r : PredRec) (hs aw : ℚ)
    (hh : r.home_team_score = some hs) (ha : r.away_team_score = some aw) :
    update_bet_results [r] =
      .ok [{ r with bet_result := some (bet_result_of hs aw r.line r.prediction) }] ∧
    (hs - aw = -r.line → bet_result_of hs aw r.line r.prediction = "PUSH") ∧
    (hs - aw < -r.line ∧ r.prediction < -r.line →
      bet_result_of hs aw r.line r.prediction = "WIN") ∧
    (-r.line < hs - aw ∧ -r.line < r.prediction →
      bet_result_of hs aw r.line r.prediction = "WIN") ∧
    (hs - aw ≠ -r.line ∧ ¬(hs - aw < -r.line ∧ r.prediction < -r.line) ∧
      ¬(-r.line < hs - aw ∧ -r.line < r.prediction) →
      bet_result_of hs aw r.line r.prediction = "LOSS") := by
  refine ⟨?_, ?_, ?_, ?_, ?_⟩
  · simp [update_bet_results, update_bet_result_row, hh, ha]
  · intro h
    rw [bet_result_of_eq, if_pos h]
  · rintro ⟨h1, h2⟩
    rw [bet_result_of_eq, if_neg (ne_of_lt h1), if_pos ⟨h1, h2⟩]
  · rintro ⟨h1, h2⟩
    rw [bet_result_of_eq, if_neg (ne_of_gt h1), if_neg, if_pos ⟨h1, h2⟩]
    rintro ⟨hc, -⟩
    exact absurd hc (not_lt.mpr (le_of_lt h1))
  · rintro ⟨h1, h2, h3⟩
    rw [bet_result_of_eq, if_neg h1, if_neg h2, if_neg h3]

/-- Witness for C1: the spec's scenario home=100, away=95 (margin 5),
line=-4.5 (line inverse 4.5), prediction 6: both above, hence WIN. -/
theorem update_bet_results_grades_witness :
    update_bet_results [winRow] =
      .ok [{ winRow with
        bet_result := some (bet_result_of 100 95 winRow.line winRow.prediction) }] ∧
    bet_result_of 100 95 winRow.line winRow.prediction = "WIN" := by
  obtain ⟨h1, -, -, hwin, -⟩ :=
    update_bet_results_grades_as_claimed winRow 100 95 rfl rfl
  exact ⟨h1, hwin (by norm_num [winRow])⟩

/-- C2 counterexample: a record with a positive home score, an away score of
zero and a null bet_result is selected by the settlement pass (the filter
checks only `home_team_score > 0`) and graded, so `bet_result` does not
remain null until both scores are non-null and non-zero. -/
theorem update_prediction_table_grades_zero_away :
    zeroAwayRow.bet_result = none ∧ zeroAwayRow.away_team_score = some 0 ∧
    update_prediction_table [zeroAwayRow] =
      .ok [{ zeroAwayRow with bet_result := some "LOSS" }] := by
  refine ⟨rfl, rfl, ?_⟩
  norm_num [update_prediction_table, bet_filter, sql_gt_zero, zeroAwayRow,
    update_bet_result_row, bet_result_of]

/-- Pointwise description of a successful settlement pass: rows not selected
by `bet_filter` are untouched; selected rows are graded from their two
scores. -/
theorem update_prediction_table_pointwise (tbl res : List PredRec)
    (hok : update_prediction_table tbl = .ok res) :
    List.Forall₂ (fun r r' =>
      (r.bet_result ≠ none → r' = r) ∧
      (sql_gt_zero r.home_team_score = false → r' = r) ∧
      (r.bet_result = none → sql_gt_zero r.home_team_score = true →
        ∃ hs aw, r.home_team_score = some hs ∧ r.away_team_score = some aw ∧
          r' = { r with bet_result := some (bet_result_of hs aw r.line r.prediction) })) tbl res := by
  induction tbl generalizing res with
  | nil =>
    simp only [update_prediction_table, Except.ok.injEq] at hok
    subst hok
    exact List.Forall₂.nil
  | cons r rest ih =>
    rw [update_prediction_table] at hok
    cases hf : bet_filter r with
    | false =>
      rw [hf, if_neg Bool.false_ne_true] at hok
      cases hrest : update_prediction_table rest with
      | error e => rw [hrest] at hok; exact absurd hok (by simp)
      | ok rest' =>
        rw [hrest] at hok
        simp only [Except.ok.injEq] at hok
        subst hok
        refine List.Forall₂.cons ⟨fun _ => rfl, fun _ => rfl, ?_⟩ (ih rest' hrest)
        intro hbr hsq
        rw [bet_filter, hbr, hsq] at hf
        simp at hf
    | true =>
      rw [hf, if_pos rfl] at hok
      cases hrow : update_bet_result_row r with
      | error e => rw [hrow] at hok; exact absurd hok (by simp)
      | ok r' =>
        rw [hrow] at hok
        cases hrest : update_prediction_table rest with
        | error e => rw [hrest] at hok; exact absurd hok (by simp)
        | ok rest' =>
          rw [hrest] at hok
          simp only [Except.ok.injEq] at hok
          subst hok
          have hfilter := hf
          rw [bet_filter, Bool.and_eq_true, decide_eq_true_eq] at hfilter
          refine List.Forall₂.cons ⟨?_, ?_, ?_⟩ (ih rest' hrest)
          · intro hbr; exact absurd hfilter.1 hbr
          · intro hsq; rw [hfilter.2] at hsq; exact absurd hsq (by simp)
          · intro _ _
            rw [update_bet_result_row] at hrow
            cases hh : r.home_team_score with
            | none => rw [hh] at hrow; exact absurd hrow (by simp)
            | some hs =>
              cases ha : r.away_team_score with
              | none => rw [hh, ha] at hrow; exact absurd hrow (by simp)
              | some aw =>
                rw [hh, ha] at hrow
                simp only [Except.ok.injEq] at hrow
                exact ⟨hs, aw, rfl, rfl, hrow.symm⟩

/-- `update_prediction_table` raises no exception when every row selected by
the settlement filter has an away score present. -/
theorem update_prediction_table_total (tbl : List PredRec)
    (h : ∀ r ∈ tbl, bet_filter r = true → r.away_team_score ≠ none) :
    ∃ res, update_prediction_table tbl = .ok res := by
  induction tbl with
  | nil => exact ⟨[], rfl⟩
  | cons r rest ih =>
    obtain ⟨res, hres⟩ := ih (fun x hx hf => h x (List.mem_cons_of_mem _ hx) hf)
    cases hf : bet_filter r with
    | false =>
      refine ⟨r :: res, ?_⟩
      rw [update_prediction_table, hf, if_neg Bool.false_ne_true, hres]
    | true =>
      have haw := h r (List.mem_cons_self r rest) hf
      have hfil := hf
      rw [bet_filter, Bool.and_eq_true, decide_eq_true_eq] at hfil
      cases hh : r.home_team_score with
      | none =>
        rw [hh] at hfil
        exact absurd hfil.2 (by simp [sql_gt_zero])
      | some hs =>
        cases ha : r.away_team_score with
        | none => exact absurd ha haw
        | some aw =>
          have hrow : update_bet_result_row r =
              .ok { r with bet_result := some (bet_result_of hs aw r.line r.prediction) } := by
            simp [update_bet_result_row, hh, ha]
          exact ⟨_, by rw [update_prediction_table, hf, if_pos rfl, hrow, hres]⟩

/-- The only exception one grading iteration can raise is the `TypeError`
of subtracting a `None` score. -/
theorem update_bet_result_row_error {r : PredRec} {e : PyError}
    (h : update_bet_result_row r = .error e) : e = PyError.typeError := by
  rw [update_bet_result_row] at h
  cases hh : r.home_team_score with
  | some hs =>
    cases ha : r.away_team_score with
    | some aw => rw [hh, ha] at h; exact absurd h (by simp)
    | none =>
      rw [hh, ha] at h
      simp only [Except.error.injEq] at h
      exact h.symm
  | none =>
    cases ha : r.away_team_score with
    | some aw =>
      rw [hh, ha] at h
      simp only [Except.error.injEq] at h
      exact h.symm
    | none =>
      rw [hh, ha] at h
      simp only [Except.error.injEq] at h
      exact h.symm

/-- If some row selected by the settlement filter has a NULL away score, the
settlement pass raises `TypeError` (Python's subtraction on `None`) and
assigns no `bet_result`. -/
theorem update_prediction_table_raises (tbl : List PredRec)
    (h : ∃ r ∈ tbl, bet_filter r = true ∧ r.away_team_score = none) :
    update_prediction_table tbl = .error PyError.typeError := by
  induction tbl with
  | nil =>
    obtain ⟨r, hr, -⟩ := h
    exact absurd hr (List.not_mem_nil r)
  | cons r rest ih =>
    obtain ⟨x, hx, hfx, hax⟩ := h
    rw [List.mem_cons] at hx
    rw [update_prediction_table]
    cases hx with
    | inl heq =>
      subst heq
      have hfil := hfx
      rw [bet_filter, Bool.and_eq_true, decide_eq_true_eq] at hfil
      have hrow : update_bet_result_row x = .error PyError.typeError := by
        cases hh : x.home_team_score with
        | none =>
          rw [hh] at hfil
          exact absurd hfil.2 (by simp [sql_gt_zero])
        | some hs => simp [update_bet_result_row, hh, hax]
      rw [hfx, if_pos rfl, hrow]
    | inr hmem =>
      have herr := ih ⟨x, hmem, hfx, hax⟩
      cases hhead : (if bet_filter r then update_bet_result_row r else .ok r) with
      | error e =>
        have he : e = PyError.typeError := by
          cases hf : bet_filter r with
          | false =>
            rw [hf, if_neg Bool.false_ne_true] at hhead
            exact absurd hhead (by simp)
          | true =>
            rw [hf, if_pos rfl] at hhead
            exact update_bet_result_row_error hhead
        rw [he]
      | ok r' =>
        dsimp only
        rw [herr]

/-- C2 amended: the settlement pass selects exactly the records with a null
`bet_result` and a non-null positive `home_team_score` (the away score is
not checked).  If some selected record's away score is NULL, the pass raises
a `TypeError` and assigns nothing; otherwise it returns the table with every
selected record graded exactly once from its two scores (an away score of
zero is graded like any other number) and every other record — in particular
any record whose `bet_result` is already set — left untouched. -/
theorem update_prediction_table_settlement_pass (tbl : List PredRec) :
    ((∃ r ∈ tbl, bet_filter r = true ∧ r.away_team_score = none) →
      update_prediction_table tbl = .error PyError.typeError) ∧
    ((∀ r ∈ tbl, bet_filter r = true → r.away_team_score ≠ none) →
      ∃ res, update_prediction_table tbl = .ok res) ∧
    (∀ res, update_prediction_table tbl = .ok res →
      List.Forall₂ (fun r r' =>
        (r.bet_result ≠ none → r' = r) ∧
        (sql_gt_zero r.home_team_score = false → r' = r) ∧
        (r.bet_result = none → sql_gt_zero r.home_team_score = true →
          ∃ hs aw, r.home_team_score = some hs ∧ r.away_team_score = some aw ∧
            r' = { r with bet_result := some (bet_result_of hs aw r.line r.prediction) })) tbl res) :=
  ⟨update_prediction_table_raises tbl, update_prediction_table_total tbl,
   fun res hok => update_prediction_table_pointwise tbl res hok⟩

/-- Witness for C2's amended theorem: a selected record with a NULL away
score aborts the pass with `TypeError`; on a table whose selected rows have
both scores, a settled row and a score-less row pass through untouched and
the ungraded row is graded WIN. -/
theorem update_prediction_table_settlement_witness :
    update_prediction_table [settledRow, nullAwayRow] =
      .error PyError.typeError ∧
    update_prediction_table [settledRow, pendingRow, gradeRow] =
      .ok [settledRow, pendingRow, { gradeRow with bet_result := some "WIN" }] ∧
    List.Forall₂ (fun r r' =>
      (r.bet_result ≠ none → r' = r) ∧
      (sql_gt_zero r.home_team_score = false → r' = r) ∧
      (r.bet_result = none → sql_gt_zero r.home_team_score = true →
        ∃ hs aw, r.home_team_score = some hs ∧ r.away_team_score = some aw ∧
          r' = { r with bet_result := some (bet_result_of hs aw r.line r.prediction) }))
      [settledRow, pendingRow, gradeRow]
      [settledRow, pendingRow, { gradeRow with bet_result := some "WIN" }] := by
  have herr := (update_prediction_table_settlement_pass
      [settledRow, nullAwayRow]).1 ⟨nullAwayRow, by simp, by decide, rfl⟩
  have hok : update_prediction_table [settledRow, pendingRow, gradeRow] =
      .ok [settledRow, pendingRow, { gradeRow with bet_result := some "WIN" }] := by
    simp +decide [update_prediction_table, bet_filter, sql_gt_zero, settledRow,
      pendingRow, gradeRow, update_bet_result_row, bet_result_of]
    norm_num
  exact ⟨herr, hok, (update_prediction_table_settlement_pass
    [settledRow, pendingRow, gradeRow]).2.2 _ hok⟩

/-- The embedded Gaussian is a probability measure, so the CDF and the
survival function at any point sum to one — the relation scipy computes
`sf` by. -/
theorem norm_cdf_add_norm_sf (loc scale x : ℚ) :
    norm_cdf loc scale x + norm_sf loc scale x = 1 := by
  rw [norm_cdf, norm_sf,
    ← ENNReal.toReal_add (MeasureTheory.measure_ne_top _ _)
      (MeasureTheory.measure_ne_top _ _),
    ← MeasureTheory.measure_union (Set.Iic_disjoint_Ioi le_rfl)
      measurableSet_Ioi,
    Set.Iic_union_Ioi, MeasureTheory.measure_univ, ENNReal.one_toReal]

/-- The CDF returned by the "cdf" branch is a probability in [0, 1]. -/
theorem norm_cdf_mem_unit (loc scale x : ℚ) :
    0 ≤ norm_cdf loc scale x ∧ norm_cdf loc scale x ≤ 1 := by
  refine ⟨ENNReal.toReal_nonneg, ?_⟩
  rw [norm_cdf]
  have h := MeasureTheory.prob_le_one
    (μ := ProbabilityTheory.gaussianReal (loc : ℝ)
      (Real.toNNReal ((scale : ℝ) ^ 2)))
    (s := Set.Iic (x : ℝ))
  calc ((ProbabilityTheory.gaussianReal (loc : ℝ)
          (Real.toNNReal ((scale : ℝ) ^ 2))) (Set.Iic (x : ℝ))).toReal
      ≤ (1 : ENNReal).toReal := ENNReal.toReal_mono (by simp) h
    _ = 1 := ENNReal.one_toReal

/-- The survival function returned by the "sf" branch is a probability in
[0, 1]. -/
theorem norm_sf_mem_unit (loc scale x : ℚ) :
    0 ≤ norm_sf loc scale x ∧ norm_sf loc scale x ≤ 1 := by
  refine ⟨ENNReal.toReal_nonneg, ?_⟩
  rw [norm_sf]
  have h := MeasureTheory.prob_le_one
    (μ := ProbabilityTheory.gaussianReal (loc : ℝ)
      (Real.toNNReal ((scale : ℝ) ^ 2)))
    (s := Set.Ioi (x : ℝ))
  calc ((ProbabilityTheory.gaussianReal (loc : ℝ)
          (Real.toNNReal ((scale : ℝ) ^ 2))) (Set.Ioi (x : ℝ))).toReal
      ≤ (1 : ENNReal).toReal := ENNReal.toReal_mono (by simp) h
    _ = 1 := ENNReal.one_toReal

/-- C3: with `line_prediction = -line` and a positive `std`,
`line_probability` returns the pair (normal CDF at the line prediction,
tag "cdf") when the prediction exceeds the line prediction, the pair
(survival function, tag "sf") when it is below, and the bare value `0.5`
(no tag) when they are equal. -/
theorem line_probability_claim (prediction line std : ℚ) (_hstd : 0 < std) :
    (-line < prediction →
      line_probability prediction line std =
        .tagged (norm_cdf prediction std (-line)) "cdf") ∧
    (prediction < -line →
      line_probability prediction line std =
        .tagged (norm_sf prediction std (-line)) "sf") ∧
    (prediction = -line →
      line_probability prediction line std = .bare (1 / 2)) := by
  have hlp : (-1 : ℚ) * line = -line := by ring
  refine ⟨?_, ?_, ?_⟩ <;> intro h
  · simp only [line_probability, hlp]
    rw [if_pos h]
  · simp only [line_probability, hlp]
    rw [if_neg (not_lt.mpr (le_of_lt h)), if_pos h]
  · simp only [line_probability, hlp]
    rw [if_neg (by rw [h]; exact lt_irrefl _), if_neg (by rw [h]; exact lt_irrefl _)]

/-- Witness for C3: at `prediction = 0`, `line = 0`, `std = 1` the equality
branch fires and the bare value `0.5` is returned. -/
theorem line_probability_witness :
    (0 : ℚ) < 1 ∧ line_probability 0 0 1 = LineProb.bare (1 / 2) :=
  ⟨by norm_num, (line_probability_claim 0 0 1 (by norm_num)).2.2 (by norm_num)⟩

/-- C4 (refuting): when a later game's Match markets contain no
"Point Spread" market, `odds_for_today` does not emit null spread fields for
it — the spread locals leak from the previous iteration, so the second
game's record carries game1's spread (-4.5) and prices (-110); and when the
first processed game has no spread market, reading the never-assigned locals
raises `NameError` instead of producing a record. -/
theorem odds_for_today_spread_carryover :
    (game2.displayGroups.headD []).filter
        (fun bet => bet.description = "Point Spread") = [] ∧
    odds_for_today [⟨[game1, game2]⟩] [] 0 0 =
      .ok (some ⟨["LAKERS", "BULLS"], ["CELTICS", "HEAT"],
        [202503261930, 202503262000],
        [some (-(9 / 2)), some (-(9 / 2))], [some (-110), some (-110)],
        [some (-110), some (-110)], [none, some (-200)], [none, some 180],
        [0, 0]⟩) ∧
    odds_for_today [⟨[game2]⟩] [] 0 0 = .error .nameError := by
  refine ⟨by decide, ?_, ?_⟩
  · simp +decide [odds_for_today, process_games, process_game, process_bets,
      process_bets_loop, parse_spread, spread_outcomes, parse_moneyline,
      moneyline_outcomes, parse_teams, parse_start_time, lastSegment,
      splitOnChar, pyUpper, pyFloat, pyUFloat, pyInt, pyUNat, digitsVal,
      strCount, is_bovada_game, bovada_json_request, Lines.push, Lines.empty,
      game1, game2, mkSpreadMarket, mkMoneylineMarket]
    norm_num
  · simp +decide [odds_for_today, process_games, process_game, process_bets,
      process_bets_loop, parse_spread, spread_outcomes, parse_moneyline,
      moneyline_outcomes, parse_teams, parse_start_time, lastSegment,
      splitOnChar, pyUpper, pyFloat, pyUFloat, pyInt, pyUNat, digitsVal,
      strCount, is_bovada_game, bovada_json_request, Lines.push, Lines.empty,
      game2, mkMoneylineMarket]

/-- C5 counterexample: a competitors list from which no team name can be
extracted (all names empty, and even the empty list) is NOT rejected:
the guard `not home_team == "" or away_team == ""` is satisfied whenever the
away name is empty, so `parse_teams` returns a pair of empty strings. -/
theorem parse_teams_all_empty_not_rejected :
    parse_teams [⟨"", true⟩, ⟨"", false⟩] = .ok ("", "") ∧
    parse_teams [] = .ok ("", "") := by
  exact ⟨rfl, rfl⟩

/-- C5 amended: `parse_teams` raises for more than two competitors; for a
well-formed list with exactly one home and one away competitor (in either
order) whose home name is nonempty it returns the upper-cased home and away
names; an all-empty competitors list is returned as a pair of empty strings
without error; the missing-data error is raised exactly when the extracted
home name is empty while the away name is not. -/
theorem parse_teams_amended (competitors : List Competitor) (hn an : String) :
    (competitors.length > 2 →
      parse_teams competitors =
        .error (.exception "Unexpected objects in competitors")) ∧
    (¬ hn = "" →
      parse_teams [⟨hn, true⟩, ⟨an, false⟩] = .ok (pyUpper hn, pyUpper an)) ∧
    (¬ hn = "" →
      parse_teams [⟨an, false⟩, ⟨hn, true⟩] = .ok (pyUpper hn, pyUpper an)) ∧
    (parse_teams [⟨"", true⟩, ⟨"", false⟩] = .ok ("", "")) ∧
    (¬ an = "" →
      parse_teams [⟨"", true⟩, ⟨an, false⟩] =
        .error (.exception "Competitors was not properly parsed. Missing data.")) := by
  refine ⟨?_, ?_, ?_, by rfl, ?_⟩
  · intro h
    simp only [parse_teams]
    rw [if_pos h]
  · intro h
    simp [parse_teams, h]
  · intro h
    simp [parse_teams, h]
  · intro h
    simp [parse_teams, h]

/-- Witness for C5's amended theorem on concrete competitor lists. -/
theorem parse_teams_amended_witness :
    parse_teams [⟨"Lakers", true⟩, ⟨"Celtics", false⟩, ⟨"Bulls", true⟩] =
      .error (.exception "Unexpected objects in competitors") ∧
    parse_teams [⟨"Lakers", true⟩, ⟨"Celtics", false⟩] =
      .ok ("LAKERS", "CELTICS") ∧
    parse_teams [⟨"Celtics", false⟩, ⟨"Lakers", true⟩] =
      .ok ("LAKERS", "CELTICS") ∧
    parse_teams [⟨"", true⟩, ⟨"", false⟩] = .ok ("", "") ∧
    parse_teams [⟨"", true⟩, ⟨"Celtics", false⟩] =
      .error (.exception "Competitors was not properly parsed. Missing data.") := by
  obtain ⟨h1, h2, h3, h4, h5⟩ :=
    parse_teams_amended [⟨"Lakers", true⟩, ⟨"Celtics", false⟩, ⟨"Bulls", true⟩]
      "Lakers" "Celtics"
  exact ⟨h1 (by norm_num), h2 (by decide), h3 (by decide), h4, h5 (by decide)⟩

/-- C6 counterexample: when exactly the home side's moneyline entry is
missing (only an "A" outcome present), the record is not produced with a
null home field — `parse_moneyline`'s guard `not home == "" or away == ""`
fails and the parse raises, so `odds_for_today` propagates the exception
instead of emitting the record. -/
theorem parse_moneyline_home_missing_fails :
    parse_moneyline ⟨"Moneyline", "Match", [⟨"A", ⟨"+180", ""⟩⟩]⟩ =
      .error (.exception "Moneyline was not properly parsed. Missing data.") ∧
    odds_for_today [⟨[gameAwayOnlyML]⟩] [] 0 0 =
      .error (.exception "Moneyline was not properly parsed. Missing data.") := by
  constructor
  · rfl
  · simp +decide [odds_for_today, process_games, process_game, process_bets,
      process_bets_loop, parse_spread, spread_outcomes, parse_moneyline,
      moneyline_outcomes, parse_teams, parse_start_time, lastSegment,
      splitOnChar, pyUpper, pyFloat, pyUFloat, pyInt, pyUNat, digitsVal,
      strCount, is_bovada_game, bovada_json_request, Lines.push, Lines.empty,
      gameAwayOnlyML, mkSpreadMarket]

/-- C6 amended: an American price of "EVEN" is normalized to +100 (on either
side); when a game's Match markets have no "Moneyline" market both moneyline
fields of its record are null; when only the away side's outcome is missing,
the away field alone is the empty sentinel (null in the record) and parsing
succeeds; but when the home side's outcome is missing while the away side is
present, `parse_moneyline` raises a parse error instead of producing the
record. -/
theorem parse_moneyline_amended (d p hc hc2 ph pa : String) (v w : ℤ) :
    (pyInt pa = some v →
      parse_moneyline ⟨d, p, [⟨"H", ⟨"EVEN", hc⟩⟩, ⟨"A", ⟨pa, hc2⟩⟩]⟩ =
        .ok (some 100, some v)) ∧
    (pyInt ph = some w →
      parse_moneyline ⟨d, p, [⟨"H", ⟨ph, hc⟩⟩, ⟨"A", ⟨"EVEN", hc2⟩⟩]⟩ =
        .ok (some w, some 100)) ∧
    ((odds_for_today [⟨[game1]⟩] [] 0 0).map
        (Option.map (fun l => (l.home_moneyline, l.away_moneyline))) =
      .ok (some ([none], [none]))) ∧
    (pyInt ph = some w →
      parse_moneyline ⟨d, p, [⟨"H", ⟨ph, hc⟩⟩]⟩ = .ok (some w, none)) ∧
    (pyInt pa = some v →
      parse_moneyline ⟨d, p, [⟨"A", ⟨pa, hc⟩⟩]⟩ =
        .error (.exception "Moneyline was not properly parsed. Missing data.")) := by
  have heven : pyInt "EVEN" = none := rfl
  refine ⟨?_, ?_, ?_, ?_, ?_⟩
  · intro hv
    by_cases hpa : pa = "EVEN"
    · rw [hpa, heven] at hv; cases hv
    · simp [parse_moneyline, moneyline_outcomes, hpa, hv]
  · intro hw
    by_cases hph : ph = "EVEN"
    · rw [hph, heven] at hw; cases hw
    · simp [parse_moneyline, moneyline_outcomes, hph, hw]
  · simp +decide [odds_for_today, process_games, process_game, process_bets,
      process_bets_loop, parse_spread, spread_outcomes, parse_moneyline,
      moneyline_outcomes, parse_teams, parse_start_time, lastSegment,
      splitOnChar, pyUpper, pyFloat, pyUFloat, pyInt, pyUNat, digitsVal,
      strCount, is_bovada_game, bovada_json_request, Lines.push, Lines.empty,
      game1, mkSpreadMarket, Except.map, Option.map]
  · intro hw
    by_cases hph : ph = "EVEN"
    · rw [hph, heven] at hw; cases hw
    · simp [parse_moneyline, moneyline_outcomes, hph, hw]
  · intro hv
    by_cases hpa : pa = "EVEN"
    · rw [hpa, heven] at hv; cases hv
    · simp [parse_moneyline, moneyline_outcomes, hpa, hv]

/-- Witness for C6's amended theorem at concrete prices. -/
theorem parse_moneyline_amended_witness :
    parse_moneyline ⟨"Moneyline", "Match",
        [⟨"H", ⟨"EVEN", ""⟩⟩, ⟨"A", ⟨"180", ""⟩⟩]⟩ = .ok (some 100, some 180) ∧
    parse_moneyline ⟨"Moneyline", "Match",
        [⟨"H", ⟨"-200", ""⟩⟩, ⟨"A", ⟨"EVEN", ""⟩⟩]⟩ = .ok (some (-200), some 100) ∧
    ((odds_for_today [⟨[game1]⟩] [] 0 0).map
        (Option.map (fun l => (l.home_moneyline, l.away_moneyline))) =
      .ok (some ([none], [none]))) ∧
    parse_moneyline ⟨"Moneyline", "Match", [⟨"H", ⟨"-200", ""⟩⟩]⟩ =
      .ok (some (-200), none) ∧
    parse_moneyline ⟨"Moneyline", "Match", [⟨"A", ⟨"180", ""⟩⟩]⟩ =
      .error (.exception "Moneyline was not properly parsed. Missing data.") := by
  obtain ⟨h1, h2, h3, h4, h5⟩ :=
    parse_moneyline_amended "Moneyline" "Match" "" "" "-200" "180" 180 (-200)
  exact ⟨h1 rfl, h2 rfl, h3, h4 rfl, h5 rfl⟩

/-- C7 counterexample: with a non-empty primary payload that contains no
game events, the secondary feed is NOT queried — `odds_for_today` returns
None ("no data") even though the secondary (playoff) feed holds a parseable
game (which, used as the payload, yields a record). -/
theorem odds_for_today_no_secondary_on_eventless_primary :
    [nonGameEvent].filter is_bovada_game = [] ∧
    odds_for_today [⟨[nonGameEvent]⟩] [⟨[game1]⟩] 0 0 = .ok none ∧
    (odds_for_today [⟨[game1]⟩] [] 0 0).map (Option.map Lines.home_team) =
      .ok (some ["LAKERS"]) := by
  refine ⟨by decide, by rfl, ?_⟩
  simp +decide [odds_for_today, process_games, process_game, process_bets,
    process_bets_loop, parse_spread, spread_outcomes, parse_moneyline,
    moneyline_outcomes, parse_teams, parse_start_time, lastSegment,
    splitOnChar, pyUpper, pyFloat, pyUFloat, pyInt, pyUNat, digitsVal,
    strCount, is_bovada_game, bovada_json_request, Lines.push, Lines.empty,
    game1, mkSpreadMarket, Except.map, Option.map]

/-- C7 amended: the secondary (playoff) feed is consulted exactly when the
primary payload is empty; with both payloads empty the parser returns None
and `scrape` turns a None result into `False` (no exception); but a
non-empty payload with no game events yields None directly, without
consulting the secondary feed. -/
theorem odds_for_today_fallback_amended (secondary p s : List FeedObj)
    (fo : FeedObj) (rest : List FeedObj) (now t : ℕ) :
    (odds_for_today [] secondary now t = odds_for_today secondary [] now t) ∧
    (odds_for_today [] [] now t = .ok none) ∧
    (fo.events.filter is_bovada_game = [] →
      odds_for_today (fo :: rest) secondary now t = .ok none) ∧
    (odds_for_today p s now t = .ok none → scrape p s now t = .ok .noData) := by
  refine ⟨?_, by rfl, ?_, ?_⟩
  · cases secondary <;> rfl
  · intro h
    simp [odds_for_today, bovada_json_request, h]
  · intro h
    simp [scrape, h]

/-- Witness for C7's amended theorem on concrete feeds. -/
theorem odds_for_today_fallback_witness :
    (odds_for_today [] [⟨[]⟩] 0 0 = odds_for_today [⟨[]⟩] [] 0 0) ∧
    odds_for_today [] [] 0 0 = .ok none ∧
    odds_for_today [⟨[nonGameEvent]⟩] [⟨[]⟩] 0 0 = .ok none ∧
    scrape [] [] 0 0 = .ok .noData := by
  obtain ⟨h1, h2, h3, h4⟩ :=
    odds_for_today_fallback_amended [⟨[]⟩] [] [] ⟨[nonGameEvent]⟩ [] 0 0
  exact ⟨h1, h2, h3 (by decide), h4 (by rfl)⟩

/-- C8: when committing the staged prediction batch raises an integrity
conflict, the orchestrator's persistence step rolls the batch back (the
committed state is untouched), falls through to the settlement pass
`update_prediction_table` and commits its result; under well-formed
committed rows the step returns normally, so the conflict never propagates
as a fatal error. -/
theorem predict_persist_recovers_conflict (committed staged : List PredRec)
    (hconflict : insert_and_commit committed staged = .error ())
    (hscores : ∀ r ∈ committed, bet_filter r = true → r.away_team_score ≠ none) :
    predict_games_on_date_persist committed staged =
      update_prediction_table committed ∧
    ∃ res, predict_games_on_date_persist committed staged = .ok res := by
  have hstep : predict_games_on_date_persist committed staged =
      update_prediction_table committed := by
    rw [predict_games_on_date_persist, hconflict]
  obtain ⟨res, hres⟩ := update_prediction_table_total committed hscores
  exact ⟨hstep, res, hstep.trans hres⟩

/-- Witness for C8: inserting a duplicate of an already-committed row
conflicts; the step falls through to the settlement pass, which grades the
committed row and commits. -/
theorem predict_persist_recovers_witness :
    insert_and_commit [gradeRow] [gradeRow] = .error () ∧
    predict_games_on_date_persist [gradeRow] [gradeRow] =
      .ok [{ gradeRow with bet_result := some "WIN" }] := by
  have h := predict_persist_recovers_conflict [gradeRow] [gradeRow] (by rfl)
    (by
      intro r hr hf
      rw [List.mem_singleton] at hr
      subst hr
      simp [gradeRow])
  refine ⟨by rfl, ?_⟩
  rw [h.1]
  simp +decide [update_prediction_table, bet_filter, sql_gt_zero, gradeRow,
    update_bet_result_row, bet_result_of]
  norm_num

/-- C9: updating the odds table with a new row for a Game Identity deletes
every existing odds row with that identity and inserts the new row (keyed to
its unique schedule game), so exactly one odds record with that identity
remains after the call. -/
theorem update_odds_table_keeps_latest (odds_table : List OddsRow)
    (sched_tbl : List SchedRow) (row : LineRow) (g : SchedRow)
    (hg : sched_tbl.filter (fun s => sched_matches s row) = [g]) :
    update_odds_table odds_table sched_tbl [row] =
      .ok (odds_table.filter (fun o => ¬ odds_matches o row) ++ [(⟨row, g.id⟩ : OddsRow)]) ∧
    (odds_table.filter (fun o => ¬ odds_matches o row) ++ [(⟨row, g.id⟩ : OddsRow)]).countP
      (fun o => odds_matches o row) = 1 := by
  constructor
  · simp [update_odds_table, update_odds_rows, hg]
  · rw [List.countP_append]
    have h1 : (odds_table.filter fun o => ¬ odds_matches o row).countP
        (fun o => odds_matches o row) = 0 := by
      rw [List.countP_eq_zero]
      intro a ha
      rw [List.mem_filter] at ha
      simpa using ha.2
    rw [h1]
    simp [List.countP_cons, odds_matches]

/-- Witness for C9: two stale rows for the Lakers-Celtics identity are
removed, the unrelated row survives, and exactly one matching row (the new
line) remains. -/
theorem update_odds_table_keeps_latest_witness :
    update_odds_table [staleOdds1, otherOdds, staleOdds2] [sched2, sched1]
      [lineRow1] = .ok ([otherOdds] ++ [(⟨lineRow1, sched1.id⟩ : OddsRow)]) ∧
    ([otherOdds] ++ [(⟨lineRow1, sched1.id⟩ : OddsRow)]).countP
      (fun o => odds_matches o lineRow1) = 1 := by
  have h := update_odds_table_keeps_latest [staleOdds1, otherOdds, staleOdds2]
    [sched2, sched1] lineRow1 sched1 (by decide)
  have hfil : ([staleOdds1, otherOdds, staleOdds2].filter
      (fun o => ¬ odds_matches o lineRow1)) = [otherOdds] := by decide
  refine ⟨?_, ?_⟩
  · rw [h.1, hfil]
  · have h2 := h.2
    rw [hfil] at h2
    exact h2

/-- Pushing one game's values onto a balanced `lines` dictionary keeps it
balanced. -/
theorem Lines.push_balanced (l : Lines) (hb : l.balanced) (ht at_ : String)
    (st : ℕ) (sp : Option ℚ) (hsp asp hml aml : Option ℤ) (scr : ℕ) :
    (l.push ht at_ st sp hsp asp hml aml scr).balanced := by
  obtain ⟨h1, h2, h3, h4, h5, h6, h7, h8⟩ := hb
  simp [Lines.push, Lines.balanced, h1, h2, h3, h4, h5, h6, h7, h8]

/-- One iteration of the game loop keeps the `lines` dictionary balanced. -/
theorem process_game_balanced {now t : ℕ} {st st' : LoopState} {g : Game}
    (h : process_game now t st g = .ok st') (hb : st.lines.balanced) :
    st'.lines.balanced := by
  rw [process_game] at h
  cases hpt : parse_start_time g.link with
  | error e => rw [hpt] at h; exact absurd h (by simp)
  | ok s =>
    rw [hpt] at h
    dsimp only at h
    by_cases hskip : now > s
    · rw [if_pos hskip] at h
      simp only [Except.ok.injEq] at h
      subst h
      exact hb
    · rw [if_neg hskip] at h
      cases hteams : parse_teams g.competitors with
      | error e => rw [hteams] at h; exact absurd h (by simp)
      | ok teams =>
        rw [hteams] at h
        dsimp only at h
        cases hdg : g.displayGroups with
        | nil => rw [hdg] at h; exact absurd h (by simp)
        | cons betting_info rest =>
          rw [hdg] at h
          dsimp only at h
          cases hpb : process_bets
              (betting_info.filter (fun bet => bet.period = "Match"))
              st.spreadVars with
          | error e => rw [hpb] at h; exact absurd h (by simp)
          | ok r =>
            rw [hpb] at h
            dsimp only at h
            cases hsp : r.2 with
            | none => rw [hsp] at h; exact absurd h (by simp)
            | some sp =>
              rw [hsp] at h
              simp only [Except.ok.injEq] at h
              subst h
              exact Lines.push_balanced _ hb _ _ _ _ _ _ _ _ _

/-- The whole game loop keeps the `lines` dictionary balanced. -/
theorem process_games_balanced {now t : ℕ} :
    ∀ {gs : List Game} {st st' : LoopState},
      process_games now t st gs = .ok st' → st.lines.balanced →
        st'.lines.balanced := by
  intro gs
  induction gs with
  | nil =>
    intro st st' h hb
    rw [process_games] at h
    simp only [Except.ok.injEq] at h
    subst h
    exact hb
  | cons g rest ih =>
    intro st st' h hb
    rw [process_games] at h
    cases hg : process_game now t st g with
    | error e => rw [hg] at h; exact absurd h (by simp)
    | ok st1 =>
      rw [hg] at h
      exact ih h (process_game_balanced hg hb)

/-- C10: every `lines` dictionary returned by `odds_for_today` carries
exactly the nine columns of the `Lines` structure, and all nine value lists
have equal length — each emitted game appends exactly one value to each. -/
theorem odds_for_today_lines_balanced (primary secondary : List FeedObj)
    (now t : ℕ) (ls : Lines)
    (h : odds_for_today primary secondary now t = .ok (some ls)) :
    ls.balanced := by
  simp only [odds_for_today] at h
  cases hbp : bovada_json_request primary with
  | some r =>
    rw [hbp] at h
    cases r with
    | nil => exact absurd h (by simp)
    | cons f rest =>
      dsimp only at h
      by_cases he : (f.events.filter is_bovada_game).isEmpty
      · rw [if_pos he] at h; exact absurd h (by simp)
      · rw [if_neg he] at h
        cases hpg : process_games now t ⟨Lines.empty, none⟩
            (f.events.filter is_bovada_game) with
        | error e => rw [hpg] at h; exact absurd h (by simp)
        | ok final =>
          rw [hpg] at h
          simp only [Except.ok.injEq, Option.some.injEq] at h
          subst h
          exact process_games_balanced hpg (by simp [Lines.empty, Lines.balanced])
  | none =>
    rw [hbp] at h
    cases hbs : bovada_json_request secondary with
    | none => rw [hbs] at h; exact absurd h (by simp)
    | some r =>
      rw [hbs] at h
      cases r with
      | nil => exact absurd h (by simp)
      | cons f rest =>
        dsimp only at h
        by_cases he : (f.events.filter is_bovada_game).isEmpty
        · rw [if_pos he] at h; exact absurd h (by simp)
        · rw [if_neg he] at h
          cases hpg : process_games now t ⟨Lines.empty, none⟩
              (f.events.filter is_bovada_game) with
          | error e => rw [hpg] at h; exact absurd h (by simp)
          | ok final =>
            rw [hpg] at h
            simp only [Except.ok.injEq, Option.some.injEq] at h
            subst h
            exact process_games_balanced hpg
              (by simp [Lines.empty, Lines.balanced])

/-- Witness for C10: the record emitted for a single full game has all nine
lists of length one. -/
theorem odds_for_today_lines_balanced_witness :
    odds_for_today [⟨[gameFull]⟩] [] 0 0 = .ok (some gameFullLines) ∧
    gameFullLines.balanced := by
  have h : odds_for_today [⟨[gameFull]⟩] [] 0 0 = .ok (some gameFullLines) := by
    simp +decide [odds_for_today, process_games, process_game, process_bets,
      process_bets_loop, parse_spread, spread_outcomes, parse_moneyline,
      moneyline_outcomes, parse_teams, parse_start_time, lastSegment,
      splitOnChar, pyUpper, pyFloat, pyUFloat, pyInt, pyUNat, digitsVal,
      strCount, is_bovada_game, bovada_json_request, Lines.push, Lines.empty,
      gameFull, mkSpreadMarket, mkMoneylineMarket, gameFullLines]
    norm_num
  exact ⟨h, odds_for_today_lines_balanced [⟨[gameFull]⟩] [] 0 0 gameFullLines h⟩
